import Mathlib

/-!
Shallow embedding of the Skyflow runtime MCP gateway layer:
credential extraction (`authenticateBearer`), vault configuration
validation (`vaultConfig`), the anonymous-mode fixed-window rate
limiter (`rateLimiter`), and the `/mcp` request handler's vault
selection logic (`server.ts`).

JavaScript strings are modelled as Lean `String`, `undefined` as
`Option`, JS truthiness of strings and objects spelled out explicitly,
and machine numbers (`Date.now()`, counters) as `Nat`/`Int`.
-/

namespace SkyflowMcp

/-- Whitespace characters removed by JavaScript `String.prototype.trim`
(ECMAScript WhiteSpace and LineTerminator sets). -/
def isJsWhitespace (c : Char) : Bool :=
  c = ' ' || c = '\t' || c = '\n' || c = '\r' ||
  c.toNat = 0x0b || c.toNat = 0x0c ||
  c.toNat = 0xa0 || c.toNat = 0xfeff || c.toNat = 0x1680 ||
  (0x2000 <= c.toNat && c.toNat <= 0x200a) ||
  c.toNat = 0x2028 || c.toNat = 0x2029 || c.toNat = 0x202f ||
  c.toNat = 0x205f || c.toNat = 0x3000

/-- Emptiness of a JS string (the falsy `""` case), via its character list. -/
def strEmpty (s : String) : Bool :=
  s.data.isEmpty

/-- Model of JavaScript `s.trim()`: strip leading and trailing whitespace. -/
def jsTrim (s : String) : String :=
  ⟨((s.data.dropWhile isJsWhitespace).reverse.dropWhile isJsWhitespace).reverse⟩

/-- JS truthiness of a `string | undefined` value: `undefined` and `""` are falsy. -/
def optStringTruthy : Option String → Bool
  | none => false
  | some s => !strEmpty s

/-- Model of JS `a || b` where `a : string | undefined` and `b : string`. -/
def jsOrElse (a : Option String) (b : String) : String :=
  match a with
  | some s => if strEmpty s then b else s
  | none => b

/-- Model of JS `a || b` where both operands are `string | undefined`. -/
def jsOrOpt (a b : Option String) : Option String :=
  if optStringTruthy a then a else b

/-- Model of JS `s.startsWith(p)`. -/
def jsStartsWith (s p : String) : Bool :=
  p.data.isPrefixOf s.data

/-- Model of JS `s.substring(n)` (drop the first `n` UTF-16-ish units;
all strings handled here are within the BMP, so chars suffice). -/
def jsSubstringFrom (s : String) (n : Nat) : String :=
  ⟨s.data.drop n⟩

/-- Split a character list at every occurrence of `sep`, keeping empty
pieces, matching JS `s.split(sep)` for a single-character separator. -/
def splitOnChar (sep : Char) : List Char → List (List Char)
  | [] => [[]]
  | c :: rest =>
    let r := splitOnChar sep rest
    if c = sep then [] :: r
    else
      match r with
      | [] => [[c]]
      | h :: t => (c :: h) :: t

/-- Model of JS `s.split(sep)` for a single-character separator. -/
def jsSplit (s : String) (sep : Char) : List String :=
  (splitOnChar sep s.data).map (fun l => ⟨l⟩)

/-! ## `src/lib/middleware/authenticateBearer.ts` -/

/-- Skyflow SDK credential shapes: `{ token }` (JWT bearer) or `{ apiKey }`.
Tagged union, exactly one variant active. -/
inductive Credentials where
  | token (value : String)
  | apiKey (value : String)
deriving DecidableEq, Repr

/-- `TokenExtractionResult` from `authenticateBearer.ts`. -/
structure TokenExtractionResult where
  isPresent : Bool
  token : Option String
  error : Option String
deriving DecidableEq, Repr

/-- `CredentialsExtractionResult` from `authenticateBearer.ts`. -/
structure CredentialsExtractionResult where
  isPresent : Bool
  credentials : Option Credentials
  error : Option String
deriving DecidableEq, Repr

/-- A character of the base64url alphabet `[A-Za-z0-9_-]`. -/
def isBase64UrlChar (c : Char) : Bool :=
  ('A' ≤ c && c ≤ 'Z') || ('a' ≤ c && c ≤ 'z') || ('0' ≤ c && c ≤ '9') ||
  c = '_' || c = '-'

/-- `looksLikeJwt` (authenticateBearer.ts lines 769-777): the string splits
on `.` into exactly 3 parts, each non-empty and all base64url characters. -/
def looksLikeJwt (value : String) : Bool :=
  let parts := jsSplit value '.'
  if parts.length ≠ 3 then
    false
  else
    parts.all (fun part => part.length > 0 && part.data.all isBase64UrlChar)

/-- `extractBearerToken` (authenticateBearer.ts lines 792-815). -/
def extractBearerToken (authHeader : Option String) : TokenExtractionResult :=
  match authHeader with
  | none => ⟨false, none, some "Missing or invalid Authorization header"⟩
  | some h =>
    if strEmpty h || !jsStartsWith h "Bearer " then
      ⟨false, none, some "Missing or invalid Authorization header"⟩
    else
      let token := jsSubstringFrom h 7
      if strEmpty token || strEmpty (jsTrim token) then
        ⟨false, none, some "Bearer token is empty"⟩
      else
        ⟨true, some token, none⟩

/-- `extractApiKey` (authenticateBearer.ts lines 830-853). -/
def extractApiKey (apiKeyParam : Option String) : TokenExtractionResult :=
  match apiKeyParam with
  | none => ⟨false, none, some "Missing or invalid apiKey query parameter"⟩
  | some p =>
    if strEmpty p then
      ⟨false, none, some "Missing or invalid apiKey query parameter"⟩
    else
      let apiKey := jsTrim p
      if strEmpty apiKey then
        ⟨false, none, some "API key is empty"⟩
      else
        ⟨true, some apiKey, none⟩

/-- `extractCredentials` (authenticateBearer.ts lines 883-919):
header first (JWT-shaped remainder becomes a bearer token, any other
remainder an API key), then the `apiKey` query parameter, else failure. -/
def extractCredentials (authHeader apiKeyParam : Option String) :
    CredentialsExtractionResult :=
  let bearerResult := extractBearerToken authHeader
  if bearerResult.isPresent && optStringTruthy bearerResult.token then
    let t := bearerResult.token.getD ""
    if looksLikeJwt t then
      ⟨true, some (.token t), none⟩
    else
      ⟨true, some (.apiKey t), none⟩
  else
    let apiKeyResult := extractApiKey apiKeyParam
    if apiKeyResult.isPresent && optStringTruthy apiKeyResult.token then
      ⟨true, some (.apiKey (apiKeyResult.token.getD "")), none⟩
    else
      ⟨false, none,
        some "Missing or invalid credentials. Provide either Authorization header with Bearer token/API key, or apiKey query parameter."⟩

/-! ## `src/lib/validation/vaultConfig.ts` -/

/-- `VaultConfig` from `vaultConfig.ts`. -/
structure VaultConfig where
  vaultId : String
  vaultUrl : String
  clusterId : String
  accountId : Option String
  workspaceId : Option String
deriving DecidableEq, Repr

/-- `ValidationResult` from `vaultConfig.ts`. -/
structure ValidationResult where
  isValid : Bool
  error : Option String
  config : Option VaultConfig
deriving DecidableEq, Repr

/-- First character of a placeholder name: `[A-Z_]` under the `/i` flag. -/
def isNameStartChar (c : Char) : Bool :=
  ('A' ≤ c && c ≤ 'Z') || ('a' ≤ c && c ≤ 'z') || c = '_'

/-- Later character of a placeholder name: `[A-Z0-9_]` under the `/i` flag. -/
def isNameChar (c : Char) : Bool :=
  isNameStartChar c || ('0' ≤ c && c ≤ '9')

/-- The body matches `[A-Z_][A-Z0-9_]*` case-insensitively. -/
def isNameMatch : List Char → Bool
  | [] => false
  | c :: rest => isNameStartChar c && rest.all isNameChar

/-- Anchored test that `cs` ends with `last` and the part before it
matches the placeholder name pattern. -/
def nameThenClose (last : Char) (cs : List Char) : Bool :=
  cs.getLast? == some last && isNameMatch cs.dropLast

/-- `looksLikePlaceholder` (rateLimiter.ts/vaultConfig lines 180-196):
detects `${NAME}`, `$NAME`, `{{NAME}}` and `%NAME%` shapes. -/
def looksLikePlaceholder (value : Option String) : Bool :=
  match value with
  | none => false
  | some v =>
    if strEmpty v then false
    else
      match v.data with
      | '$' :: '{' :: rest => nameThenClose '}' rest
      | '$' :: rest => isNameMatch rest
      | '{' :: '{' :: rest => (rest.getLast? == some '}') && nameThenClose '}' rest.dropLast
      | '%' :: rest => nameThenClose '%' rest
      | _ => false

/-- One attempt of `([^.]+)\.vault` at the current position: a maximal
non-empty run of non-dot characters followed by the literal `.vault`. -/
def matchCapture (cs : List Char) : Option (List Char) :=
  let run := cs.takeWhile (fun c => c != '.')
  if run.isEmpty then none
  else if ".vault".data.isPrefixOf (cs.drop run.length) then some run
  else none

/-- One attempt of `(?:https?:\/\/)?([^.]+)\.vault` at the current
position, trying the greedy alternatives `https://`, `http://`, then no
prefix, in regex backtracking order. -/
def matchFrom (cs : List Char) : Option (List Char) :=
  match (if "https://".data.isPrefixOf cs then matchCapture (cs.drop 8) else none) with
  | some r => some r
  | none =>
    match (if "http://".data.isPrefixOf cs then matchCapture (cs.drop 7) else none) with
    | some r => some r
    | none => matchCapture cs

/-- Leftmost-match scan of the regex over the whole string. -/
def scanClusterId : List Char → Option (List Char)
  | [] => none
  | c :: rest =>
    match matchFrom (c :: rest) with
    | some r => some r
    | none => scanClusterId rest

/-- `extractClusterId` (vaultConfig lines 210-214): JS
`vaultUrl.match(/(?:https?:\/\/)?([^.]+)\.vault/)`, first capture group,
`null` if there is no match. -/
def extractClusterId (vaultUrl : String) : Option String :=
  (scanClusterId vaultUrl.data).map (fun l => ⟨l⟩)

/-- Parameters accepted by `validateVaultConfig`. -/
structure VaultConfigParams where
  vaultId : Option String
  vaultUrl : Option String
  accountId : Option String
  workspaceId : Option String
deriving DecidableEq, Repr

/-- `validateVaultConfig` (vaultConfig lines 230-271). -/
def validateVaultConfig (params : VaultConfigParams) : ValidationResult :=
  if !optStringTruthy params.vaultId then
    ⟨false,
      some "vaultId is required (provide as query parameter or VAULT_ID environment variable)",
      none⟩
  else if !optStringTruthy params.vaultUrl then
    ⟨false,
      some "vaultUrl is required (provide as query parameter or VAULT_URL environment variable)",
      none⟩
  else
    match extractClusterId (params.vaultUrl.getD "") with
    | none =>
      ⟨false,
        some "Invalid vaultUrl format. Expected format: https://<clusterId>.vault.skyflowapis.com or <clusterId>.vault.skyflowapis.com",
        none⟩
    | some clusterId =>
      ⟨true, none,
        some ⟨params.vaultId.getD "", params.vaultUrl.getD "", clusterId,
          params.accountId, params.workspaceId⟩⟩

/-! ## `src/lib/middleware/rateLimiter.ts` -/

/-- `RateLimitEntry`: request count so far, and the window end. -/
structure RateLimitEntry where
  count : Nat
  resetTime : Nat
deriving DecidableEq, Repr

/-- `RateLimiterConfig`. -/
structure RateLimiterConfig where
  maxRequests : Nat
  windowMs : Nat
deriving DecidableEq, Repr

/-- Observable outcome of one rate-limiter pass for an anonymous request:
the `next()`/429 decision and the three `X-RateLimit-*` headers. -/
structure RateLimitDecision where
  allowed : Bool
  limit : Nat
  remaining : Nat
  resetSeconds : Nat
deriving DecidableEq, Repr

/-- The in-memory `rateLimitStore`, a string-keyed map modelled as an
association list. -/
abbrev Store := List (String × RateLimitEntry)

/-- `Map.get`. -/
def storeLookup (key : String) : Store → Option RateLimitEntry
  | [] => none
  | (k, e) :: rest => if k = key then some e else storeLookup key rest

/-- `Map.set` (replace the binding if present, else append). -/
def storeInsert (key : String) (e : RateLimitEntry) : Store → Store
  | [] => [(key, e)]
  | (k, e') :: rest =>
    if k = key then (k, e) :: rest else (k, e') :: storeInsert key e rest

/-- The entry used for this request (rateLimiter.ts lines 78-88): the
stored one, or a fresh `{count: 0, resetTime: now + windowMs}` when the
key is absent or the stored entry has expired (`now > resetTime`). -/
def effectiveEntry (config : RateLimiterConfig) (key : String) (now : Nat)
    (store : Store) : RateLimitEntry :=
  match storeLookup key store with
  | none => ⟨0, now + config.windowMs⟩
  | some e => if now > e.resetTime then ⟨0, now + config.windowMs⟩ else e

/-- The store after the create-or-reset step (rateLimiter.ts lines 80-88). -/
def resetStore (config : RateLimiterConfig) (key : String) (now : Nat)
    (store : Store) : Store :=
  match storeLookup key store with
  | none => storeInsert key ⟨0, now + config.windowMs⟩ store
  | some e =>
    if now > e.resetTime then storeInsert key ⟨0, now + config.windowMs⟩ store
    else store

/-- The check-then-increment body of the middleware (rateLimiter.ts lines
78-116): reject without incrementing when `count >= maxRequests`
(reporting `remaining = 0`), otherwise increment and report
`remaining = maxRequests - count`. `resetSeconds = ceil((resetTime - now)/1000)`. -/
def rateLimitCheck (config : RateLimiterConfig) (key : String) (now : Nat)
    (store : Store) : RateLimitDecision × Store :=
  let entry := effectiveEntry config key now store
  let store1 := resetStore config key now store
  let resetSeconds := (entry.resetTime - now + 999) / 1000
  if entry.count ≥ config.maxRequests then
    (⟨false, config.maxRequests, 0, resetSeconds⟩, store1)
  else
    (⟨true, config.maxRequests, config.maxRequests - (entry.count + 1), resetSeconds⟩,
      storeInsert key ⟨entry.count + 1, entry.resetTime⟩ store1)

/-- The `anonymousRateLimiter` middleware produced by
`createAnonymousRateLimiter` (rateLimiter.ts lines 63-118). `none` means
the request was passed through untouched (no store access, no headers);
`some d` carries the rate-limit decision and headers for an
anonymous-mode request, keyed by `"anon:" + clientId`. -/
def anonymousRateLimiter (config : RateLimiterConfig) (isAnonymousMode : Bool)
    (clientId : String) (now : Nat) (store : Store) :
    Option RateLimitDecision × Store :=
  if !isAnonymousMode then (none, store)
  else
    let r := rateLimitCheck config ("anon:" ++ clientId) now store
    (some r.1, r.2)

/-- Sequential invocations of the anonymous rate limiter for one client
at the given timestamps, threading the store. -/
def runAnon (config : RateLimiterConfig) (clientId : String) :
    List Nat → Store → List (Option RateLimitDecision) × Store
  | [], store => ([], store)
  | t :: ts, store =>
    let r := anonymousRateLimiter config true clientId t store
    let rest := runAnon config clientId ts r.2
    (r.1 :: rest.1, rest.2)

/-- The `x-forwarded-for` header as express delivers it:
a string or an array of strings. -/
inductive HeaderValue where
  | str (s : String)
  | arr (l : List String)
deriving DecidableEq, Repr

/-- `getClientId` (rateLimiter.ts lines 25-39). `none` models the
TypeError thrown when an empty header array makes `forwarded[length-1]`
undefined; every realistic input yields `some`. -/
def getClientId (forwarded : Option HeaderValue) (ip remoteAddress : Option String) :
    Option String :=
  match forwarded with
  | some (.str s) =>
    if strEmpty s then some (jsOrElse ip (jsOrElse remoteAddress "unknown"))
    else some (jsTrim ((jsSplit s ',').getLastD ""))
  | some (.arr l) => (l.getLast?).map jsTrim
  | none => some (jsOrElse ip (jsOrElse remoteAddress "unknown"))

/-- Value of a decimal digit run, most significant first. -/
def digitsToNat (ds : List Char) : Nat :=
  ds.foldl (fun a c => a * 10 + (c.toNat - 48)) 0

/-- Model of JS `parseInt(s, 10)`: skip leading whitespace, optional
sign, then the maximal run of leading decimal digits; `none` models
`NaN` (no digits). Trailing non-digit characters are ignored. -/
def jsParseInt (s : String) : Option Int :=
  let core : List Char → Option Nat := fun t =>
    let ds := t.takeWhile (fun c => '0' ≤ c && c ≤ '9')
    if ds.isEmpty then none else some (digitsToNat ds)
  match s.data.dropWhile isJsWhitespace with
  | '-' :: rest => (core rest).map (fun n => -(n : Int))
  | '+' :: rest => (core rest).map (fun n => (n : Int))
  | cs => (core cs).map (fun n => (n : Int))

/-- `getAnonymousRateLimitConfig` (rateLimiter.ts lines 124-136), with
the two environment variables as explicit inputs: defaults `"10"` and
`"60000"`, fatal error when the parse is `NaN` or non-positive. -/
def getAnonymousRateLimitConfig (reqEnv winEnv : Option String) :
    Except String RateLimiterConfig :=
  let maxRequests := jsParseInt (jsOrElse reqEnv "10")
  let windowMs := jsParseInt (jsOrElse winEnv "60000")
  match maxRequests with
  | none => .error "Invalid ANON_MODE_RATE_LIMIT_REQUESTS: must be a positive integer"
  | some m =>
    if m ≤ 0 then
      .error "Invalid ANON_MODE_RATE_LIMIT_REQUESTS: must be a positive integer"
    else
      match windowMs with
      | none => .error "Invalid ANON_MODE_RATE_LIMIT_WINDOW_MS: must be a positive integer"
      | some w =>
        if w ≤ 0 then
          .error "Invalid ANON_MODE_RATE_LIMIT_WINDOW_MS: must be a positive integer"
        else
          .ok ⟨m.toNat, w.toNat⟩

/-! ## `src/server.ts`: the `/mcp` request handler's configuration logic -/

/-- Request state set by the `authenticateBearer` middleware. -/
structure ReqAuthState where
  isAnonymousMode : Bool
  skyflowCredentials : Option Credentials
  anonVaultConfig : Option (String × String)
deriving DecidableEq, Repr

/-- The environment variables read by the gateway layer. -/
structure EnvConfig where
  anonModeApiKey : Option String
  anonModeVaultId : Option String
  anonModeVaultUrl : Option String
  vaultId : Option String
  vaultUrl : Option String
  accountId : Option String
  workspaceId : Option String
deriving DecidableEq, Repr

/-- Query parameters read by the `/mcp` handler. -/
structure McpQuery where
  vaultId : Option String
  vaultUrl : Option String
  accountId : Option String
  workspaceId : Option String
deriving DecidableEq, Repr

/-- `authenticateBearer` middleware (authenticateBearer.ts lines
927-972): resolve credentials, falling back to the anonymous
configuration when resolution fails and anonymous mode is configured,
else a 401 error. -/
def authenticateBearer (authHeader apiKeyParam : Option String)
    (env : EnvConfig) : Except String ReqAuthState :=
  let result := extractCredentials authHeader apiKeyParam
  if !result.isPresent then
    if optStringTruthy env.anonModeApiKey && optStringTruthy env.anonModeVaultId
        && optStringTruthy env.anonModeVaultUrl then
      .ok ⟨true, some (.apiKey (env.anonModeApiKey.getD "")),
        some (env.anonModeVaultId.getD "", env.anonModeVaultUrl.getD "")⟩
    else
      .error (result.error.getD "")
  else
    .ok ⟨false, result.credentials, none⟩

/-- Outcome of the `/mcp` handler's configuration phase. -/
inductive McpHandlerOutcome where
  | badRequest (error : String)
  | unauthorized (error : String)
  | proceed (isAnonymousMode : Bool) (config : VaultConfig) (credentials : Credentials)
deriving DecidableEq, Repr

/-- The tail of the `/mcp` handler after the placeholder-fallback block
(server.ts lines 656-699): select the vault configuration, validate it,
require credentials, and proceed. -/
def mcpSelectAndValidate (useAnonymousMode : Bool) (req : ReqAuthState)
    (env : EnvConfig) (query : McpQuery) : McpHandlerOutcome :=
  let chosen : Option String × Option String :=
    match useAnonymousMode, req.anonVaultConfig with
    | true, some (vid, vurl) => (some vid, some vurl)
    | _, _ => (jsOrOpt query.vaultId env.vaultId, jsOrOpt query.vaultUrl env.vaultUrl)
  let accountId := jsOrOpt query.accountId env.accountId
  let workspaceId := jsOrOpt query.workspaceId env.workspaceId
  let validation := validateVaultConfig ⟨chosen.1, chosen.2, accountId, workspaceId⟩
  if !validation.isValid then
    .badRequest (validation.error.getD "")
  else
    match req.skyflowCredentials with
    | none => .unauthorized "Credentials are required"
    | some creds =>
      .proceed useAnonymousMode (validation.config.getD ⟨"", "", "", none, none⟩) creds

/-- The `/mcp` handler's configuration phase (server.ts lines 623-699):
when the query parameters carry un-rendered placeholders and the request
is not already anonymous, silently substitute the anonymous fallback
configuration if it is configured, else fail with 400; then select and
validate the vault configuration. -/
def mcpHandler (req : ReqAuthState) (env : EnvConfig) (query : McpQuery) :
    McpHandlerOutcome :=
  let hasPlaceholderParams :=
    looksLikePlaceholder query.vaultId || looksLikePlaceholder query.vaultUrl
  if hasPlaceholderParams && !req.isAnonymousMode then
    if optStringTruthy env.anonModeApiKey && optStringTruthy env.anonModeVaultId
        && optStringTruthy env.anonModeVaultUrl then
      mcpSelectAndValidate true
        { req with
          skyflowCredentials := some (.apiKey (env.anonModeApiKey.getD "")),
          anonVaultConfig :=
            some (env.anonModeVaultId.getD "", env.anonModeVaultUrl.getD "") }
        env query
    else
      .badRequest "Configuration error: Query parameters contain unsubstituted placeholders (e.g., ${SKYFLOW_VAULT_ID}). Please set your SKYFLOW_VAULT_ID and SKYFLOW_VAULT_URL environment variables, or contact the developer if anonymous mode is not working."
  else
    mcpSelectAndValidate req.isAnonymousMode req env query

/-! ## Helper lemmas -/

theorem strMk_data (s : String) : (⟨s.data⟩ : String) = s := by
  cases s
  rfl

theorem strLength_data (s : String) : s.length = s.data.length := by
  cases s
  rfl

theorem strEmpty_eq_false {s : String} (h : s ≠ "") : strEmpty s = false := by
  cases s with
  | mk d =>
    cases d with
    | nil => exact absurd rfl h
    | cons c t => rfl

theorem data_ne_nil {s : String} (h : s ≠ "") : s.data ≠ [] := by
  intro hd
  exact h (String.ext hd)

theorem jsTrim_empty : jsTrim "" = "" := rfl

theorem ne_empty_of_jsTrim_ne_empty {r : String} (h : jsTrim r ≠ "") : r ≠ "" := by
  intro hr
  rw [hr] at h
  exact h jsTrim_empty

theorem jsStartsWith_bearer (r : String) :
    jsStartsWith ("Bearer " ++ r) "Bearer " = true := by
  simp only [jsStartsWith, String.data_append]
  rw [ List.isPrefixOf_iff_prefix]
  exact List.prefix_append _ _

theorem jsSubstringFrom_bearer (r : String) :
    jsSubstringFrom ("Bearer " ++ r) 7 = r := by
  apply String.ext
  show ("Bearer " ++ r).data.drop 7 = r.data
  rw [String.data_append]
  exact List.drop_left' (by rfl)

theorem strEmpty_bearer (r : String) : strEmpty ("Bearer " ++ r) = false := by
  simp [strEmpty, String.data_append]

theorem extractBearerToken_bearer (r : String) (h : jsTrim r ≠ "") :
    extractBearerToken (some ("Bearer " ++ r)) = ⟨true, some r, none⟩ := by
  have h1 : strEmpty (jsTrim r) = false := strEmpty_eq_false h
  have h2 : strEmpty r = false := strEmpty_eq_false (ne_empty_of_jsTrim_ne_empty h)
  simp [extractBearerToken, strEmpty_bearer, jsStartsWith_bearer,
    jsSubstringFrom_bearer, h1, h2]

theorem extractCredentials_bearer (r : String) (q : Option String)
    (h : jsTrim r ≠ "") :
    extractCredentials (some ("Bearer " ++ r)) q
      = if looksLikeJwt r then ⟨true, some (.token r), none⟩
        else ⟨true, some (.apiKey r), none⟩ := by
  have h2 : strEmpty r = false := strEmpty_eq_false (ne_empty_of_jsTrim_ne_empty h)
  simp [extractCredentials, extractBearerToken_bearer r h, optStringTruthy, h2]

theorem looksLikeJwt_iff (r : String) :
    looksLikeJwt r = true ↔
      ((jsSplit r '.').length = 3 ∧
        ∀ p ∈ jsSplit r '.', p ≠ "" ∧ p.data.all isBase64UrlChar = true) := by
  unfold looksLikeJwt
  by_cases hl : (jsSplit r '.').length = 3
  · rw [if_neg (by simp [hl])]
    rw [List.all_eq_true]
    simp only [hl, true_and]
    apply forall_congr'
    intro p
    apply imp_congr_right
    intro _
    rw [Bool.and_eq_true]
    constructor
    · rintro ⟨h1, h2⟩
      refine ⟨?_, h2⟩
      intro hempty
      subst hempty
      simp at h1
    · rintro ⟨h1, h2⟩
      refine ⟨?_, h2⟩
      have hd : p.data ≠ [] := data_ne_nil h1
      rw [decide_eq_true_eq, gt_iff_lt, strLength_data]
      exact List.length_pos.mpr hd
  · rw [if_pos hl]
    simp [hl]

example : extractCredentials (some "Bearer a.b.c") none =
    ⟨true, some (.token "a.b.c"), none⟩ := by decide
example : extractCredentials (some "Bearer sky-abc123") none =
    ⟨true, some (.apiKey "sky-abc123"), none⟩ := by decide
example : extractCredentials none (some "qkey") =
    ⟨true, some (.apiKey "qkey"), none⟩ := by decide
example : extractCredentials (some "Bearer  ") (some "qkey") =
    ⟨true, some (.apiKey "qkey"), none⟩ := by decide
example : looksLikeJwt "a.b.c" = true := by decide
example : looksLikeJwt "a..c" = false := by decide
example : looksLikeJwt "sky-abc123" = false := by decide
example : looksLikePlaceholder (some "${SKYFLOW_VAULT_ID}") = true := by decide
example : looksLikePlaceholder (some "$VAULT_ID") = true := by decide
example : looksLikePlaceholder (some "{{vault_id}}") = true := by decide
example : looksLikePlaceholder (some "%VAULT_ID%") = true := by decide
example : looksLikePlaceholder (some "abc123") = false := by decide
example : looksLikePlaceholder (some "https://abc.vault.skyflowapis.com") = false := by decide
example : looksLikePlaceholder none = false := by decide
example : extractClusterId "https://abc123.vault.skyflowapis.com" = some "abc123" := by decide
example : extractClusterId "abc123.vault.skyflowapis.com" = some "abc123" := by decide
example : extractClusterId "https://invalid.com" = none := by decide
example : (validateVaultConfig
    ⟨some "vault123", some "https://abc.vault.skyflowapis.com", none, none⟩).isValid
    = true := by decide
example : (runAnon ⟨3, 1000⟩ "1.2.3.4" [0, 0, 0, 0, 0] []).1.map
    (Option.map RateLimitDecision.allowed)
    = [some true, some true, some true, some false, some false] := by decide
example : (runAnon ⟨3, 1000⟩ "1.2.3.4" [0, 0, 0, 0, 0] []).2
    = [("anon:1.2.3.4", ⟨3, 1000⟩)] := by decide
example : anonymousRateLimiter ⟨3, 1000⟩ true "1.2.3.4" 1001
    [("anon:1.2.3.4", ⟨3, 1000⟩)]
    = (some ⟨true, 3, 2, 1⟩, [("anon:1.2.3.4", ⟨1, 2001⟩)]) := by decide
example : mcpHandler ⟨false, some (.token "t"), none⟩
    ⟨some "anonkey", some "anonVault", some "https://demo.vault.skyflowapis.com",
      none, none, none, none⟩
    ⟨some "${VAULT_ID}", some "https://real.vault.skyflowapis.com", none, none⟩
    = .proceed true ⟨"anonVault", "https://demo.vault.skyflowapis.com", "demo",
      none, none⟩ (.apiKey "anonkey") := by decide
example : getAnonymousRateLimitConfig none none = .ok ⟨10, 60000⟩ := rfl
example : getAnonymousRateLimitConfig (some "3.5") none = .ok ⟨3, 60000⟩ := rfl
example : getAnonymousRateLimitConfig (some "abc") none
    = .error "Invalid ANON_MODE_RATE_LIMIT_REQUESTS: must be a positive integer" := rfl
example : getAnonymousRateLimitConfig (some "0") (some "50")
    = .error "Invalid ANON_MODE_RATE_LIMIT_REQUESTS: must be a positive integer" := rfl
example : getClientId (some (.str "203.0.113.195, 70.41.3.18, 150.172.238.178"))
    none none = some "150.172.238.178" := by decide
example : getClientId none none none = some "unknown" := by decide

theorem takeWhile_nondot (seg rest : List Char)
    (h : seg.all (fun c => c != '.') = true) :
    (seg ++ '.' :: rest).takeWhile (fun c => c != '.') = seg := by
  rw [List.takeWhile_append_of_pos (List.all_eq_true.mp h)]
  simp [List.takeWhile]

theorem not_isPrefixOf_append_dot (p : List Char) :
    ∀ seg rest : List Char, p.all (fun c => c != '.') = true →
      p.isPrefixOf seg = false → p.isPrefixOf (seg ++ '.' :: rest) = false := by
  induction p with
  | nil =>
    intro seg rest _ hpre
    simp [List.isPrefixOf] at hpre
  | cons c p' ih =>
    intro seg rest hall hpre
    rw [List.all_cons, Bool.and_eq_true] at hall
    have hc : c ≠ '.' := by simpa using hall.1
    cases seg with
    | nil =>
      show (c :: p').isPrefixOf ('.' :: rest) = false
      simp [List.isPrefixOf, hc]
    | cons x seg' =>
      show (c :: p').isPrefixOf (x :: (seg' ++ '.' :: rest)) = false
      simp only [List.isPrefixOf, Bool.and_eq_false_iff]
      simp only [List.isPrefixOf, Bool.and_eq_false_iff] at hpre
      rcases hpre with hx | hrest
      · exact Or.inl hx
      · exact Or.inr (ih seg' rest hall.2 hrest)

theorem matchCapture_eq (seg rest : List Char)
    (hne : seg ≠ []) (hdot : seg.all (fun c => c != '.') = true) :
    matchCapture (seg ++ '.' :: ("vault".data ++ rest)) = some seg := by
  unfold matchCapture
  rw [takeWhile_nondot seg ("vault".data ++ rest) hdot]
  rw [if_neg (by simp [hne])]
  rw [if_pos]
  rw [List.drop_left]
  rw [show ('.' :: ("vault".data ++ rest)) = ".vault".data ++ rest from rfl]
  rw [ List.isPrefixOf_iff_prefix]
  exact List.prefix_append _ _

theorem scanClusterId_of_matchFrom {cs r : List Char}
    (h : matchFrom cs = some r) (hne : cs ≠ []) : scanClusterId cs = some r := by
  cases cs with
  | nil => exact absurd rfl hne
  | cons c rest => simp [scanClusterId, h]

theorem storeLookup_storeInsert (q key : String) (e : RateLimitEntry) :
    ∀ s : Store, storeLookup q (storeInsert key e s)
      = if key = q then some e else storeLookup q s := by
  intro s
  induction s with
  | nil =>
    by_cases hq : key = q <;> simp [storeInsert, storeLookup, hq]
  | cons hd tl ih =>
    obtain ⟨k, v⟩ := hd
    by_cases hk : k = key
    · subst hk
      by_cases hq : k = q <;> simp [storeInsert, storeLookup, hq]
    · by_cases hq : k = q
      · subst hq
        have : ¬ key = k := fun h => hk h.symm
        simp [storeInsert, storeLookup, hk, this]
      · simp [storeInsert, storeLookup, hk, hq, ih]

theorem storeLookup_resetStore (config : RateLimiterConfig) (key : String)
    (now : Nat) (store : Store) (q : String) :
    storeLookup q (resetStore config key now store)
      = if key = q then some (effectiveEntry config key now store)
        else storeLookup q store := by
  unfold resetStore effectiveEntry
  cases hl : storeLookup key store with
  | none => rw [storeLookup_storeInsert]
  | some e =>
    by_cases hexp : now > e.resetTime
    · simp only [hexp, if_pos]
      rw [storeLookup_storeInsert]
    · simp only [hexp, if_neg]
      by_cases hq : key = q
      · subst hq
        simp [hl]
      · simp [hq]

theorem mcpSelect_flag (u : Bool) (req : ReqAuthState) (env : EnvConfig)
    (query : McpQuery) (flag : Bool) (cfg : VaultConfig) (creds : Credentials) :
    mcpSelectAndValidate u req env query = .proceed flag cfg creds → flag = u := by
  unfold mcpSelectAndValidate
  intro h
  split at h
  all_goals split at h
  all_goals simp only [] at h
  all_goals split at h
  all_goals try exact McpHandlerOutcome.noConfusion h
  all_goals injection h with h1 h2 h3
  all_goals exact h1.symm

/-! ## Claim theorems -/

/-- **C1** (confirmed): fixed-window rate limiting with `maxRequests = 3`:
five sequential invocations for one client inside one window produce the
allowed-sequence `[true, true, true, false, false]` and remaining-sequence
`[2, 1, 0, 0, 0]`; a further request after `windowMs` has elapsed
(`now > resetTime`) finds the counter reset to 0 — it behaves exactly as on
an empty store, is allowed, and leaves a fresh entry `{count 1, resetTime
now + windowMs}`. -/
theorem c1_fixed_window_sequence :
    (runAnon ⟨3, 1000⟩ "1.2.3.4" [0, 0, 0, 0, 0] []).1.map
        (Option.map RateLimitDecision.allowed)
      = [some true, some true, some true, some false, some false] ∧
    (runAnon ⟨3, 1000⟩ "1.2.3.4" [0, 0, 0, 0, 0] []).1.map
        (Option.map RateLimitDecision.remaining)
      = [some 2, some 1, some 0, some 0, some 0] ∧
    anonymousRateLimiter ⟨3, 1000⟩ true "1.2.3.4" 1001
        (runAnon ⟨3, 1000⟩ "1.2.3.4" [0, 0, 0, 0, 0] []).2
      = (some ⟨true, 3, 2, 1⟩, [("anon:1.2.3.4", ⟨1, 2001⟩)]) ∧
    anonymousRateLimiter ⟨3, 1000⟩ true "1.2.3.4" 1001
        (runAnon ⟨3, 1000⟩ "1.2.3.4" [0, 0, 0, 0, 0] []).2
      = anonymousRateLimiter ⟨3, 1000⟩ true "1.2.3.4" 1001 [] :=
  ⟨by decide, by decide, by decide, by decide⟩

/-- **C2** (corrected): for a header `"Bearer " + r` whose remainder `r` is
non-empty after trimming whitespace: if `r` splits on `.` into exactly 3
non-empty base64url parts, credential resolution yields the bearer-token
credential `{token: r}`; otherwise it yields `{apiKey: r}`. (The original
claim quantified over all non-empty `r`; a whitespace-only `r` instead falls
through to the query parameter — see the counterexample.) -/
theorem c2_jwt_shape_detection (r : String) (q : Option String)
    (h : jsTrim r ≠ "") :
    (((jsSplit r '.').length = 3 ∧
        ∀ p ∈ jsSplit r '.', p ≠ "" ∧ p.data.all isBase64UrlChar = true) →
      extractCredentials (some ("Bearer " ++ r)) q
        = ⟨true, some (.token r), none⟩) ∧
    (¬((jsSplit r '.').length = 3 ∧
        ∀ p ∈ jsSplit r '.', p ≠ "" ∧ p.data.all isBase64UrlChar = true) →
      extractCredentials (some ("Bearer " ++ r)) q
        = ⟨true, some (.apiKey r), none⟩) := by
  constructor
  · intro hshape
    have hjw : looksLikeJwt r = true := (looksLikeJwt_iff r).mpr hshape
    rw [extractCredentials_bearer r q h, if_pos hjw]
  · intro hshape
    have hjw : looksLikeJwt r = false := by
      cases hv : looksLikeJwt r
      · rfl
      · exact absurd ((looksLikeJwt_iff r).mp hv) hshape
    rw [extractCredentials_bearer r q h, if_neg (by simp [hjw])]

/-- **C2** counterexample to the claim as stated: `r = " "` is non-empty and
not JWT-shaped, so the claim predicts the API-key credential `{apiKey: " "}`;
the code instead rejects the remainder as empty after trimming and, with no
query parameter, fails outright. -/
theorem c2_counterexample :
    (" " : String) ≠ "" ∧
    extractCredentials (some ("Bearer " ++ " ")) none
      = ⟨false, none,
          some "Missing or invalid credentials. Provide either Authorization header with Bearer token/API key, or apiKey query parameter."⟩ :=
  ⟨by decide, by decide⟩

/-- Witness for C2: a JWT-shaped remainder yields a bearer token and a
non-JWT remainder yields an API key, both with a competing query parameter. -/
theorem c2_witness :
    extractCredentials (some ("Bearer " ++ "a.b.c")) (some "qkey")
      = ⟨true, some (.token "a.b.c"), none⟩ ∧
    extractCredentials (some ("Bearer " ++ "sky-abc123")) (some "qkey")
      = ⟨true, some (.apiKey "sky-abc123"), none⟩ :=
  ⟨(c2_jwt_shape_detection "a.b.c" (some "qkey") (by decide)).1 (by decide),
    (c2_jwt_shape_detection "sky-abc123" (some "qkey") (by decide)).2 (by decide)⟩

/-- **C3** (corrected): for a header `"Bearer " + r` whose remainder `r` is
non-empty **after trimming whitespace**, credential resolution is independent
of the `apiKey` query parameter and derives its credential from `r`. (The
original claim quantified over all non-empty remainders, including
whitespace-only ones; for those the code does fall back to the query
parameter — see the counterexample.) -/
theorem c3_header_precedence (r : String) (q : Option String)
    (h : jsTrim r ≠ "") :
    extractCredentials (some ("Bearer " ++ r)) q
      = extractCredentials (some ("Bearer " ++ r)) none ∧
    (extractCredentials (some ("Bearer " ++ r)) q).credentials
      = some (if looksLikeJwt r then .token r else .apiKey r) := by
  rw [extractCredentials_bearer r q h, extractCredentials_bearer r none h]
  refine ⟨rfl, ?_⟩
  cases hjw : looksLikeJwt r <;> simp [hjw]

/-- **C3** counterexample to the claim as stated: the header `"Bearer  "`
has the non-empty remainder `" "`, yet resolution falls back to the `apiKey`
query parameter, and its value determines the result. -/
theorem c3_counterexample :
    extractCredentials (some ("Bearer " ++ " ")) (some "qkey")
      = ⟨true, some (.apiKey "qkey"), none⟩ ∧
    extractCredentials (some ("Bearer " ++ " ")) (some "qkey")
      ≠ extractCredentials (some ("Bearer " ++ " ")) (some "otherkey") :=
  ⟨by decide, by decide⟩

/-- Witness for C3 at the non-JWT remainder `"sky-abc123"` with a competing
query parameter. -/
theorem c3_witness :
    extractCredentials (some ("Bearer " ++ "sky-abc123")) (some "qkey")
      = extractCredentials (some ("Bearer " ++ "sky-abc123")) none ∧
    (extractCredentials (some ("Bearer " ++ "sky-abc123")) (some "qkey")).credentials
      = some (if looksLikeJwt "sky-abc123" then .token "sky-abc123"
          else .apiKey "sky-abc123") :=
  c3_header_precedence "sky-abc123" (some "qkey") (by decide)

theorem effectiveEntry_count_le (config : RateLimiterConfig) (key : String)
    (now : Nat) (store : Store)
    (hstore : ∀ k e, storeLookup k store = some e → e.count ≤ config.maxRequests) :
    (effectiveEntry config key now store).count ≤ config.maxRequests := by
  unfold effectiveEntry
  cases hl : storeLookup key store with
  | none => simp
  | some e' =>
    by_cases hexp : now > e'.resetTime
    · simp [hexp]
    · simp only [hexp, if_neg]
      exact hstore key e' hl

/-- **C4** (corrected): for an authenticated (non-anonymous) request, the
anonymous fallback vault configuration is silently substituted exactly when
**at least one** of the `vaultId`/`vaultUrl` query parameters looks like a
placeholder and the anonymous-mode configuration is present (the original
claim required *both* to look like placeholders — see the counterexample);
with placeholders present and no anonymous configuration the request fails
with 400; with no placeholder-shaped parameter an authenticated request never
proceeds anonymously. The claim's scenario — both parameters placeholders,
fallback configured — proceeds on the anonymous vault configuration. -/
theorem c4_placeholder_fallback :
    (∀ (req : ReqAuthState) (env : EnvConfig) (query : McpQuery)
        (ak avid avurl cid : String),
      req.isAnonymousMode = false →
      env.anonModeApiKey = some ak → ak ≠ "" →
      env.anonModeVaultId = some avid → avid ≠ "" →
      env.anonModeVaultUrl = some avurl → avurl ≠ "" →
      (looksLikePlaceholder query.vaultId || looksLikePlaceholder query.vaultUrl)
        = true →
      extractClusterId avurl = some cid →
      mcpHandler req env query
        = .proceed true
            ⟨avid, avurl, cid, jsOrOpt query.accountId env.accountId,
              jsOrOpt query.workspaceId env.workspaceId⟩
            (.apiKey ak)) ∧
    (∀ (req : ReqAuthState) (env : EnvConfig) (query : McpQuery),
      req.isAnonymousMode = false →
      looksLikePlaceholder query.vaultId = false →
      looksLikePlaceholder query.vaultUrl = false →
      ∀ (flag : Bool) (cfg : VaultConfig) (creds : Credentials),
        mcpHandler req env query = .proceed flag cfg creds → flag = false) ∧
    (∀ (req : ReqAuthState) (env : EnvConfig) (query : McpQuery),
      req.isAnonymousMode = false →
      (looksLikePlaceholder query.vaultId || looksLikePlaceholder query.vaultUrl)
        = true →
      (optStringTruthy env.anonModeApiKey && optStringTruthy env.anonModeVaultId
        && optStringTruthy env.anonModeVaultUrl) = false →
      mcpHandler req env query
        = .badRequest "Configuration error: Query parameters contain unsubstituted placeholders (e.g., ${SKYFLOW_VAULT_ID}). Please set your SKYFLOW_VAULT_ID and SKYFLOW_VAULT_URL environment variables, or contact the developer if anonymous mode is not working.") := by
  refine ⟨?_, ?_, ?_⟩
  · intro req env query ak avid avurl cid hanon hek hak hev hav heu hau hlp hcid
    simp only [mcpHandler, mcpSelectAndValidate, validateVaultConfig, hlp, hanon,
      hek, hev, heu, optStringTruthy, strEmpty_eq_false hak,
      strEmpty_eq_false hav, strEmpty_eq_false hau, Option.getD_some, hcid,
      Bool.not_false, Bool.and_true, Bool.true_and, Bool.and_self,
      Bool.not_true, Bool.false_eq_true, if_false, if_true]
  · intro req env query hanon hlp1 hlp2 flag cfg creds heq
    unfold mcpHandler at heq
    simp only [hlp1, hlp2, Bool.or_self, Bool.false_and, Bool.false_eq_true,
      if_false] at heq
    have := mcpSelect_flag req.isAnonymousMode req env query flag cfg creds heq
    rw [this, hanon]
  · intro req env query hanon hlp hmiss
    unfold mcpHandler
    simp only [hlp, hanon, Bool.not_false, Bool.and_true, Bool.true_and, hmiss,
      Bool.false_eq_true, if_false, if_true]

/-- **C4** counterexample to the claim as stated: only `vaultId` is
placeholder-shaped (`vaultUrl` is a plain URL and
`looksLikePlaceholder` rejects it), yet the anonymous fallback
configuration is substituted and the request proceeds anonymously, so the
substitution is not restricted to "both look like placeholders". -/
theorem c4_counterexample :
    looksLikePlaceholder (some "https://real.vault.skyflowapis.com") = false ∧
    mcpHandler ⟨false, some (.token "t"), none⟩
      ⟨some "anonkey", some "anonVault", some "https://demo.vault.skyflowapis.com",
        none, none, none, none⟩
      ⟨some "${VAULT_ID}", some "https://real.vault.skyflowapis.com", none, none⟩
      = .proceed true
          ⟨"anonVault", "https://demo.vault.skyflowapis.com", "demo", none, none⟩
          (.apiKey "anonkey") :=
  ⟨by decide, by decide⟩

/-- Witness for C4 at the claim's own scenario: both query parameters are
un-rendered placeholders, the anonymous fallback is configured, and the
request proceeds on the anonymous vault configuration; a conjunct applies
the no-fallback-400 case, and one the never-anonymous case. -/
theorem c4_witness :
    mcpHandler ⟨false, some (.token "t"), none⟩
      ⟨some "anonkey", some "demoVault", some "https://demo.vault.skyflowapis.com",
        none, none, none, none⟩
      ⟨some "${VAULT_ID}", some "${VAULT_URL}", none, none⟩
      = .proceed true
          ⟨"demoVault", "https://demo.vault.skyflowapis.com", "demo", none, none⟩
          (.apiKey "anonkey") ∧
    mcpHandler ⟨false, some (.token "t"), none⟩
      ⟨none, none, none, none, none, none, none⟩
      ⟨some "${VAULT_ID}", some "${VAULT_URL}", none, none⟩
      = .badRequest "Configuration error: Query parameters contain unsubstituted placeholders (e.g., ${SKYFLOW_VAULT_ID}). Please set your SKYFLOW_VAULT_ID and SKYFLOW_VAULT_URL environment variables, or contact the developer if anonymous mode is not working." ∧
    (false : Bool) = false :=
  ⟨c4_placeholder_fallback.1 ⟨false, some (.token "t"), none⟩
      ⟨some "anonkey", some "demoVault", some "https://demo.vault.skyflowapis.com",
        none, none, none, none⟩
      ⟨some "${VAULT_ID}", some "${VAULT_URL}", none, none⟩
      "anonkey" "demoVault" "https://demo.vault.skyflowapis.com" "demo"
      rfl rfl (by decide) rfl (by decide) rfl (by decide) (by decide) (by decide),
    c4_placeholder_fallback.2.2 ⟨false, some (.token "t"), none⟩
      ⟨none, none, none, none, none, none, none⟩
      ⟨some "${VAULT_ID}", some "${VAULT_URL}", none, none⟩
      rfl (by decide) (by decide),
    c4_placeholder_fallback.2.1 ⟨false, some (.token "t"), none⟩
      ⟨none, none, none, none, none, none, none⟩
      ⟨some "v1", some "https://a.vault.skyflowapis.com", none, none⟩
      rfl (by decide) (by decide) false
      ⟨"v1", "https://a.vault.skyflowapis.com", "a", none, none⟩
      (.token "t") (by decide)⟩

/-- **C5** (confirmed): the store invariant. (a) Every invocation, anonymous
or not, preserves `count ≤ maxRequests` for every stored entry (counts are
`Nat`, hence non-negative). (b) An invocation finding a live entry with
`count ≥ maxRequests` rejects the request and leaves the store completely
unchanged — no increment. (c) An entry whose `resetTime` has passed
(`now > resetTime`) is replaced by a fresh `{count: 0, resetTime: now +
windowMs}` entry rather than incremented: the decision is computed from
count 0 regardless of the stale count, and the admitted request stores
`{count: 1, resetTime: now + windowMs}`. -/
theorem c5_store_invariant :
    (∀ (config : RateLimiterConfig) (isAnon : Bool) (clientId : String)
        (now : Nat) (store : Store),
      (∀ k e, storeLookup k store = some e → e.count ≤ config.maxRequests) →
      ∀ k e, storeLookup k
          (anonymousRateLimiter config isAnon clientId now store).2 = some e →
        e.count ≤ config.maxRequests) ∧
    (∀ (config : RateLimiterConfig) (clientId : String) (now : Nat)
        (store : Store) (e : RateLimitEntry),
      storeLookup ("anon:" ++ clientId) store = some e →
      ¬ now > e.resetTime → e.count ≥ config.maxRequests →
      anonymousRateLimiter config true clientId now store
        = (some ⟨false, config.maxRequests, 0, (e.resetTime - now + 999) / 1000⟩,
            store)) ∧
    (∀ (config : RateLimiterConfig) (clientId : String) (now : Nat)
        (store : Store) (e : RateLimitEntry),
      storeLookup ("anon:" ++ clientId) store = some e →
      now > e.resetTime → 1 ≤ config.maxRequests →
      (anonymousRateLimiter config true clientId now store).1
        = some ⟨true, config.maxRequests, config.maxRequests - 1,
            (config.windowMs + 999) / 1000⟩ ∧
      storeLookup ("anon:" ++ clientId)
          (anonymousRateLimiter config true clientId now store).2
        = some ⟨1, now + config.windowMs⟩) := by
  refine ⟨?_, ?_, ?_⟩
  · intro config isAnon clientId now store hstore k e
    cases isAnon with
    | false => exact fun hlk => hstore k e hlk
    | true =>
      intro hlk
      have hr : (anonymousRateLimiter config true clientId now store).2
          = (rateLimitCheck config ("anon:" ++ clientId) now store).2 := rfl
      rw [hr] at hlk
      by_cases hge : (effectiveEntry config ("anon:" ++ clientId) now store).count
          ≥ config.maxRequests
      · have h2 : (rateLimitCheck config ("anon:" ++ clientId) now store).2
            = resetStore config ("anon:" ++ clientId) now store := by
          simp only [rateLimitCheck]
          rw [if_pos hge]
        rw [h2, storeLookup_resetStore] at hlk
        by_cases hq : ("anon:" ++ clientId) = k
        · rw [if_pos hq] at hlk
          rw [← Option.some.inj hlk]
          exact effectiveEntry_count_le config ("anon:" ++ clientId) now store hstore
        · rw [if_neg hq] at hlk
          exact hstore k e hlk
      · have h2 : (rateLimitCheck config ("anon:" ++ clientId) now store).2
            = storeInsert ("anon:" ++ clientId)
                ⟨(effectiveEntry config ("anon:" ++ clientId) now store).count + 1,
                  (effectiveEntry config ("anon:" ++ clientId) now store).resetTime⟩
                (resetStore config ("anon:" ++ clientId) now store) := by
          simp only [rateLimitCheck]
          rw [if_neg hge]
        rw [h2, storeLookup_storeInsert] at hlk
        by_cases hq : ("anon:" ++ clientId) = k
        · rw [if_pos hq] at hlk
          rw [← Option.some.inj hlk]
          show (effectiveEntry config ("anon:" ++ clientId) now store).count + 1
              ≤ config.maxRequests
          omega
        · rw [if_neg hq, storeLookup_resetStore, if_neg hq] at hlk
          exact hstore k e hlk
  · intro config clientId now store e hl hnexp hge
    have heff : effectiveEntry config ("anon:" ++ clientId) now store = e := by
      unfold effectiveEntry
      rw [hl]
      exact if_neg hnexp
    have hrs : resetStore config ("anon:" ++ clientId) now store = store := by
      unfold resetStore
      rw [hl]
      exact if_neg hnexp
    have h1 : rateLimitCheck config ("anon:" ++ clientId) now store
        = (⟨false, config.maxRequests, 0, (e.resetTime - now + 999) / 1000⟩,
            store) := by
      simp only [rateLimitCheck]
      rw [heff, hrs, if_pos hge]
    show (some (rateLimitCheck config ("anon:" ++ clientId) now store).1,
        (rateLimitCheck config ("anon:" ++ clientId) now store).2) = _
    rw [h1]
  · intro config clientId now store e hl hexp hmax
    have heff : effectiveEntry config ("anon:" ++ clientId) now store
        = ⟨0, now + config.windowMs⟩ := by
      unfold effectiveEntry
      rw [hl]
      exact if_pos hexp
    have hrs : resetStore config ("anon:" ++ clientId) now store
        = storeInsert ("anon:" ++ clientId) ⟨0, now + config.windowMs⟩ store := by
      unfold resetStore
      rw [hl]
      exact if_pos hexp
    have hnge : ¬ ((⟨0, now + config.windowMs⟩ : RateLimitEntry).count
        ≥ config.maxRequests) := by
      show ¬ (0 ≥ config.maxRequests)
      omega
    have h1 : rateLimitCheck config ("anon:" ++ clientId) now store
        = (⟨true, config.maxRequests, config.maxRequests - (0 + 1),
              ((now + config.windowMs) - now + 999) / 1000⟩,
            storeInsert ("anon:" ++ clientId) ⟨0 + 1, now + config.windowMs⟩
              (storeInsert ("anon:" ++ clientId) ⟨0, now + config.windowMs⟩
                store)) := by
      simp only [rateLimitCheck]
      rw [heff, hrs, if_neg hnge]
    constructor
    · show some (rateLimitCheck config ("anon:" ++ clientId) now store).1 = _
      rw [h1]
      simp [Nat.add_sub_cancel_left]
    · show storeLookup ("anon:" ++ clientId)
          (rateLimitCheck config ("anon:" ++ clientId) now store).2 = _
      rw [h1]
      show storeLookup _ (storeInsert _ _ _) = _
      rw [storeLookup_storeInsert, if_pos rfl]

/-- Witness for C5: the preservation, reject and reset conjuncts applied at
concrete stores, times and configuration. -/
theorem c5_witness :
    ((⟨1, 1000⟩ : RateLimitEntry).count ≤ (⟨3, 1000⟩ : RateLimiterConfig).maxRequests) ∧
    anonymousRateLimiter ⟨3, 1000⟩ true "c" 500 [("anon:c", ⟨3, 1500⟩)]
      = (some ⟨false, 3, 0, (1500 - 500 + 999) / 1000⟩, [("anon:c", ⟨3, 1500⟩)]) ∧
    ((anonymousRateLimiter ⟨3, 1000⟩ true "c" 2000 [("anon:c", ⟨3, 1500⟩)]).1
        = some ⟨true, 3, 3 - 1, (1000 + 999) / 1000⟩ ∧
      storeLookup "anon:c"
          (anonymousRateLimiter ⟨3, 1000⟩ true "c" 2000 [("anon:c", ⟨3, 1500⟩)]).2
        = some ⟨1, 2000 + 1000⟩) :=
  ⟨(c5_store_invariant.1 ⟨3, 1000⟩ true "c" 0 []
        (by intro k e h; simp [storeLookup] at h))
      "anon:c" ⟨1, 1000⟩ (by decide),
    c5_store_invariant.2.1 ⟨3, 1000⟩ "c" 500 [("anon:c", ⟨3, 1500⟩)] ⟨3, 1500⟩
      (by decide) (by decide) (by decide),
    c5_store_invariant.2.2 ⟨3, 1000⟩ "c" 2000 [("anon:c", ⟨3, 1500⟩)] ⟨3, 1500⟩
      (by decide) (by decide) (by decide)⟩

/-- **C7** (confirmed): `extractClusterId` captures, after an optional
`http://` or `https://` prefix, the leading dot-delimited segment
immediately preceding the literal `vault`, and returns `none` when the
pattern does not match; in particular the three documented examples hold. -/
theorem c7_extract_cluster_id :
    (∀ seg post : String, seg ≠ "" →
      seg.data.all (fun c => c != '.') = true →
      extractClusterId ("https://" ++ seg ++ ".vault" ++ post) = some seg) ∧
    (∀ seg post : String, seg ≠ "" →
      seg.data.all (fun c => c != '.') = true →
      jsStartsWith seg "https://" = false → jsStartsWith seg "http://" = false →
      extractClusterId (seg ++ ".vault" ++ post) = some seg) ∧
    extractClusterId "https://abc.vault.skyflowapis.com" = some "abc" ∧
    extractClusterId "abc.vault.skyflowapis.com" = some "abc" ∧
    extractClusterId "https://example.com" = none := by
  refine ⟨?_, ?_, by decide, by decide, by decide⟩
  · intro seg post hne hdot
    have hd : seg.data ≠ [] := data_ne_nil hne
    have hm : matchFrom
        ("https://".data ++ (seg.data ++ '.' :: ("vault".data ++ post.data)))
        = some seg.data := by
      unfold matchFrom
      rw [if_pos (( List.isPrefixOf_iff_prefix).mpr (List.prefix_append _ _))]
      rw [List.drop_left' (by rfl)]
      rw [matchCapture_eq seg.data post.data hd hdot]
    have hs := scanClusterId_of_matchFrom hm (by simp)
    have hdata : ("https://" ++ seg ++ ".vault" ++ post).data
        = "https://".data ++ (seg.data ++ '.' :: ("vault".data ++ post.data)) := by
      show (("https://".data ++ seg.data) ++ ".vault".data) ++ post.data = _
      rw [List.append_assoc, List.append_assoc]
      rfl
    unfold extractClusterId
    rw [hdata, hs]
    simp [strMk_data]
  · intro seg post hne hdot hns hnp
    have hd : seg.data ≠ [] := data_ne_nil hne
    have hpre1 : "https://".data.isPrefixOf
        (seg.data ++ '.' :: ("vault".data ++ post.data)) = false := by
      apply not_isPrefixOf_append_dot
      · decide
      · simpa [jsStartsWith] using hns
    have hpre2 : "http://".data.isPrefixOf
        (seg.data ++ '.' :: ("vault".data ++ post.data)) = false := by
      apply not_isPrefixOf_append_dot
      · decide
      · simpa [jsStartsWith] using hnp
    have hm : matchFrom (seg.data ++ '.' :: ("vault".data ++ post.data))
        = some seg.data := by
      unfold matchFrom
      simp only [hpre1, hpre2, Bool.false_eq_true, if_false]
      exact matchCapture_eq seg.data post.data hd hdot
    have hs := scanClusterId_of_matchFrom hm (by simp [hd])
    have hdata : (seg ++ ".vault" ++ post).data
        = seg.data ++ '.' :: ("vault".data ++ post.data) := by
      show (seg.data ++ ".vault".data) ++ post.data = _
      rw [List.append_assoc]
      rfl
    unfold extractClusterId
    rw [hdata, hs]
    simp [strMk_data]

/-- Witness for C7: the two general conjuncts applied at the documented
inputs, with the URL written in prefix-plus-segment form. -/
theorem c7_witness :
    extractClusterId ("https://" ++ "abc" ++ ".vault" ++ ".skyflowapis.com")
      = some "abc" ∧
    extractClusterId ("abc" ++ ".vault" ++ ".skyflowapis.com") = some "abc" :=
  ⟨c7_extract_cluster_id.1 "abc" ".skyflowapis.com" (by decide) (by decide),
    c7_extract_cluster_id.2.1 "abc" ".skyflowapis.com" (by decide) (by decide)
      (by decide) (by decide)⟩

/-- **C6** (confirmed): client identity derivation. With a forwarded-address
chain present, `getClientId` returns the rightmost entry (trimmed): the last
element of a header array, or the last comma-separated piece of a header
string — never the client-controlled leftmost one. Without the header it
falls back to `req.ip`, then to `socket.remoteAddress`, then to the literal
`"unknown"`. -/
theorem c6_client_identity :
    (∀ (l : List String) (x : String) (ip ra : Option String),
      getClientId (some (.arr (l ++ [x]))) ip ra = some (jsTrim x)) ∧
    (∀ (s : String) (ip ra : Option String), s ≠ "" →
      getClientId (some (.str s)) ip ra
        = some (jsTrim ((jsSplit s ',').getLastD ""))) ∧
    (∀ (ipv : String) (ra : Option String), ipv ≠ "" →
      getClientId none (some ipv) ra = some ipv) ∧
    (∀ rav : String, rav ≠ "" →
      getClientId none none (some rav) = some rav) ∧
    getClientId none none none = some "unknown" := by
  refine ⟨?_, ?_, ?_, ?_, by decide⟩
  · intro l x ip ra
    simp [getClientId, List.getLast?_concat]
  · intro s ip ra hs
    simp [getClientId, strEmpty_eq_false hs]
  · intro ipv ra hip
    simp [getClientId, jsOrElse, strEmpty_eq_false hip]
  · intro rav hra
    simp [getClientId, jsOrElse, strEmpty_eq_false hra]

/-- Witness for C6: rightmost entry of an array chain and of a
comma-separated chain, and the direct-peer fallback, at concrete inputs. -/
theorem c6_witness :
    getClientId (some (.arr (["203.0.113.195"] ++ ["150.172.238.178"])))
        none none = some (jsTrim "150.172.238.178") ∧
    getClientId (some (.str "203.0.113.195, 70.41.3.18")) none none
      = some (jsTrim ((jsSplit "203.0.113.195, 70.41.3.18" ',').getLastD "")) ∧
    getClientId none (some "10.0.0.1") none = some "10.0.0.1" :=
  ⟨c6_client_identity.1 ["203.0.113.195"] "150.172.238.178" none none,
    c6_client_identity.2.1 "203.0.113.195, 70.41.3.18" none none (by decide),
    c6_client_identity.2.2.1 "10.0.0.1" none (by decide)⟩

/-- **C8** (corrected): with both environment variables unset the
configuration is `maxRequests = 10`, `windowMs = 60000`; a supplied value
whose `parseInt(·, 10)` result is `NaN` or non-positive raises the fatal
startup error. (The original claim said *every* value that is not a positive
integer errors; a value with a positive integer prefix such as `"3.5"` is
instead silently truncated and accepted — see the counterexample.) -/
theorem c8_config_validation :
    getAnonymousRateLimitConfig none none = .ok ⟨10, 60000⟩ ∧
    (∀ s w : Option String,
      (∀ n : Int, jsParseInt (jsOrElse s "10") = some n → n ≤ 0) →
      getAnonymousRateLimitConfig s w
        = .error "Invalid ANON_MODE_RATE_LIMIT_REQUESTS: must be a positive integer") ∧
    (∀ (s w : Option String) (n : Int),
      jsParseInt (jsOrElse s "10") = some n → 0 < n →
      (∀ m : Int, jsParseInt (jsOrElse w "60000") = some m → m ≤ 0) →
      getAnonymousRateLimitConfig s w
        = .error "Invalid ANON_MODE_RATE_LIMIT_WINDOW_MS: must be a positive integer") := by
  refine ⟨rfl, ?_, ?_⟩
  · intro s w hbad
    unfold getAnonymousRateLimitConfig
    cases hp : jsParseInt (jsOrElse s "10") with
    | none => rfl
    | some n =>
      have hn : n ≤ 0 := hbad n hp
      exact if_pos hn
  · intro s w n hp hpos hbad
    unfold getAnonymousRateLimitConfig
    rw [hp]
    have hnn : ¬ n ≤ 0 := by omega
    cases hw : jsParseInt (jsOrElse w "60000") with
    | none =>
      show (if n ≤ 0 then _ else _) = _
      rw [if_neg hnn]
    | some m =>
      have hm : m ≤ 0 := hbad m hw
      show (if n ≤ 0 then _ else _) = _
      rw [if_neg hnn]
      exact if_pos hm

/-- **C8** counterexample to the claim as stated: the supplied value `"3.5"`
is not a positive integer, yet no fatal error is raised — `parseInt`
truncates it to `3` and the configuration is accepted. -/
theorem c8_counterexample :
    getAnonymousRateLimitConfig (some "3.5") none = .ok ⟨3, 60000⟩ ∧
    getAnonymousRateLimitConfig (some "3.5") none
      ≠ .error "Invalid ANON_MODE_RATE_LIMIT_REQUESTS: must be a positive integer" :=
  ⟨rfl, fun h => Except.noConfusion h⟩

/-- Witness for C8: a non-numeric request limit and a zero window both raise
their fatal errors. -/
theorem c8_witness :
    getAnonymousRateLimitConfig (some "abc") none
      = .error "Invalid ANON_MODE_RATE_LIMIT_REQUESTS: must be a positive integer" ∧
    getAnonymousRateLimitConfig none (some "0")
      = .error "Invalid ANON_MODE_RATE_LIMIT_WINDOW_MS: must be a positive integer" :=
  ⟨c8_config_validation.2.1 (some "abc") none
      (by
        intro n h
        rw [show jsParseInt (jsOrElse (some "abc") "10") = none from rfl] at h
        exact Option.noConfusion h),
    c8_config_validation.2.2 none (some "0") 10 rfl (by omega)
      (by
        intro m h
        rw [show jsParseInt (jsOrElse (some "0") "60000") = some (0 : Int)
          from rfl] at h
        have h2 := Option.some.inj h
        omega)⟩

/-- **C9** (confirmed): a request whose `isAnonymousMode` flag is false
passes through the anonymous rate limiter unconditionally — never a 429 —
and the store is returned completely unchanged, with no decision (hence no
rate-limit headers). -/
theorem c9_authenticated_bypass (config : RateLimiterConfig)
    (clientId : String) (now : Nat) (store : Store) :
    anonymousRateLimiter config false clientId now store = (none, store) := rfl

/-- **C10** (confirmed): `validateVaultConfig`'s verdict and error message
are independent of `accountId` and `workspaceId`, and a successful
validation carries both fields through unchanged. -/
theorem c10_account_workspace_frame :
    ∀ vid vurl a a' w w' : Option String,
      (validateVaultConfig ⟨vid, vurl, a, w⟩).isValid
        = (validateVaultConfig ⟨vid, vurl, a', w'⟩).isValid ∧
      (validateVaultConfig ⟨vid, vurl, a, w⟩).error
        = (validateVaultConfig ⟨vid, vurl, a', w'⟩).error ∧
      (∀ cfg, (validateVaultConfig ⟨vid, vurl, a, w⟩).config = some cfg →
        cfg.accountId = a ∧ cfg.workspaceId = w) := by
  intro vid vurl a a' w w'
  unfold validateVaultConfig
  cases h1 : optStringTruthy vid <;> cases h2 : optStringTruthy vurl <;>
    simp [h1, h2]
  cases h3 : extractClusterId (vurl.getD "") <;> simp

/-- Witness for C10: a successful validation at concrete inputs carries
`accountId` and `workspaceId` through unchanged. -/
theorem c10_witness :
    (VaultConfig.mk "v1" "https://abc.vault.skyflowapis.com" "abc"
        (some "acct") (some "ws")).accountId = some "acct" ∧
    (VaultConfig.mk "v1" "https://abc.vault.skyflowapis.com" "abc"
        (some "acct") (some "ws")).workspaceId = some "ws" :=
  (c10_account_workspace_frame (some "v1")
      (some "https://abc.vault.skyflowapis.com") (some "acct") none
      (some "ws") none).2.2
    ⟨"v1", "https://abc.vault.skyflowapis.com", "abc", some "acct", some "ws"⟩
    (by decide)

end SkyflowMcp
